import Mathlib

/-!
Shallow embedding of `logic/dispatcher.py` (synnefo message-queue dispatcher).

The dispatcher talks to an AMQP broker through a channel; every broker or
OS side effect (declare, bind, consume, cancel, close, fork, kill, waitpid,
print, log, sleep) is recorded as an explicit event in a trace, and every
external outcome (connection attempts, `chan.wait()` results, `queue_delete`
results, `waitpid` results) is an oracle parameter.  Python-level mutable
state (`settings.BINDINGS`, `self.clienttags`, the channel object) is
threaded explicitly.  Consumer tags, which amqplib generates fresh per
`basic_consume`, are modelled as naturals drawn from a counter.
-/

/-- A member of `settings.BINDINGS` / `settings.BINDINGS_DEBUG`: the 4-tuple
`(queue, exchange, routing_key, handler_name)` indexed in the source as
`binding[0] .. binding[3]`. -/
structure Binding where
  queue : String
  exchange : String
  routingKey : String
  handler : String
deriving DecidableEq

/-- The part of `synnefo.settings` the dispatcher reads.  `BINDINGS` is a
mutable module-level list in Python: `Dispatcher._init` aliases it
(`bindings = settings.BINDINGS`) and, in debug mode, extends it in place
(`bindings += settings.BINDINGS_DEBUG`), so the settings value is threaded
through the embedding as state. -/
structure Settings where
  EXCHANGES : List String
  QUEUES : List String
  BINDINGS : List Binding
  QUEUE_DEBUG : String
  BINDINGS_DEBUG : List Binding
  DEBUG : Bool
deriving DecidableEq

/-- The mutable fields of a `Dispatcher` instance: the `debug` flag, the
`clienttags` list (consumer tags appended by `_init`), and the counter
producing the next fresh consumer tag the channel will hand out. -/
structure DispState where
  debug : Bool
  clienttags : List Nat
  nextTag : Nat
deriving DecidableEq

/-- One broker/logging side effect of the worker-side dispatcher code. -/
inductive Event where
  | logInfo (msg : String)
  | logError (msg : String)
  | logDebug (msg : String)
  | connectAttempt
  | sleep (seconds : Nat)
  | exchangeDeclare (exchange typ : String) (durable autoDelete : Bool)
  | queueDeclare (queue : String) (durable exclusive autoDelete : Bool)
  | queueBind (queue exchange routingKey : String)
  | basicConsume (queue handler : String) (tag : Nat)
  | chanWait
  | basicCancel (tag : Nat)
  | connectionClose
  | channelClose
deriving DecidableEq

/-- The connection loop of `Dispatcher._init` (lines 101-111): `conn = None;
while conn == None: try amqp.Connection(...) except socket.error:
time.sleep(1)`.  `ok k` says whether the k-th connection attempt succeeds
(a refused connection raises `socket.error` in Python 2); `fuel` bounds how
many attempts we unfold — the code itself has no bound.  Returns the trace
and `some k` for the attempt that produced the connection, `none` if the
loop is still retrying when the fuel runs out. -/
def connect_loop (ok : Nat → Bool) : Nat → Nat → List Event × Option Nat
  | 0, _ => ([], none)
  | fuel + 1, k =>
    if ok k then
      ([Event.logInfo "Attempting to connect", Event.connectAttempt], some k)
    else
      let r := connect_loop ok fuel (k + 1)
      (Event.logInfo "Attempting to connect" :: Event.connectAttempt ::
        Event.sleep 1 :: r.1, r.2)

/-- The binding loop of `Dispatcher._init` (lines 134-146): for each binding,
`getattr(callbacks, binding[3])` — which succeeds exactly when the handler
name is defined in the `callbacks` registry `cb` — then on failure logs
"Cannot find callback ..." and continues, and on success runs `queue_bind`,
`basic_consume` (returning a fresh tag), a debug log, and
`self.clienttags.append(tag)`.  Arguments: remaining bindings, current
`clienttags`, next fresh tag.  Returns (clienttags, next tag, trace). -/
def bindLoop (cb : List String) : List Binding → List Nat → Nat → List Nat × Nat × List Event
  | [], tags, next => (tags, next, [])
  | b :: rest, tags, next =>
    if cb.contains b.handler then
      let r := bindLoop cb rest (tags ++ [next]) (next + 1)
      (r.1, r.2.1,
        Event.queueBind b.queue b.exchange b.routingKey ::
        Event.basicConsume b.queue b.handler next ::
        Event.logDebug ("Binding " ++ b.exchange ++ "(" ++ b.routingKey ++
          ") to queue " ++ b.queue ++ " with handler " ++ b.handler) :: r.2.2)
    else
      let r := bindLoop cb rest tags next
      (r.1, r.2.1, Event.logError ("Cannot find callback " ++ b.handler) :: r.2.2)

/-- The tags that one run of the binding loop freshly generates:
one fresh tag per binding whose handler resolves in the registry,
counting up from `next`. -/
def bindTags (cb : List String) : List Binding → Nat → List Nat
  | [], _ => []
  | b :: rest, next =>
    if cb.contains b.handler then next :: bindTags cb rest (next + 1)
    else bindTags cb rest next

/-- The binding list `Dispatcher._init` iterates over: `bindings =
settings.BINDINGS`, plus `settings.BINDINGS_DEBUG` when both the instance
debug flag and `settings.DEBUG` are set (lines 125-131). -/
def initBindings (s : Settings) (d : DispState) : List Binding :=
  if d.debug && s.DEBUG then s.BINDINGS ++ s.BINDINGS_DEBUG else s.BINDINGS

/-- Result of one run of `Dispatcher._init`: the settings after the run
(`bindings += settings.BINDINGS_DEBUG` mutates `settings.BINDINGS` in
place, since `bindings` aliases it), the dispatcher state, and the trace. -/
structure InitResult where
  s : Settings
  d : DispState
  events : List Event
deriving DecidableEq

/-- The topology-registration part of `Dispatcher._init` (lines 98,
116-146): log "Initializing", declare every exchange (topic, durable,
not auto-delete), declare every queue (durable, not exclusive, not
auto-delete), in debug mode declare the debug queue and extend the binding
list in place, then run the binding loop, appending the new consumer tags
to the existing `self.clienttags`.  The connection phase that sits between
the first log and the declarations (lines 101-114) is modelled separately
by `connect_loop`; by claim C5 it contributes only attempt/sleep events
before eventually handing over a fresh channel. -/
def Dispatcher._init (cb : List String) (s : Settings) (d : DispState) : InitResult :=
  let dbg := d.debug && s.DEBUG
  let declEx := s.EXCHANGES.map (fun e => Event.exchangeDeclare e "topic" true false)
  let declQ := s.QUEUES.map (fun q => Event.queueDeclare q true false false)
  let declDbg := if dbg then [Event.queueDeclare s.QUEUE_DEBUG true false false] else []
  let bindings := initBindings s d
  let s' := if dbg then { s with BINDINGS := bindings } else s
  let r := bindLoop cb bindings d.clienttags d.nextTag
  { s := s'
    d := { d with clienttags := r.1, nextTag := r.2.1 }
    events := Event.logInfo "Initializing" :: (declEx ++ declQ ++ declDbg ++ r.2.2) }

/-- What one call to `self.chan.wait()` did: returned after dispatching a
message, raised `SystemExit` (injected by `_exit_handler` on
SIGINT/SIGTERM), raised `amqp.exceptions.AMQPConnectionException`, or
raised `socket.error`. -/
inductive WaitOutcome where
  | msg
  | sysExit
  | amqpConnErr
  | sockErr
deriving DecidableEq

/-- Result of running the `while True` loop of `Dispatcher.wait` over a
finite prefix of `chan.wait()` outcomes: final settings, final dispatcher
state, trace, and whether the loop exited via the `except SystemExit:
break` arm (`exited = false` means the loop is still running when the
oracle is exhausted). -/
structure WaitResult where
  s : Settings
  d : DispState
  events : List Event
  exited : Bool
deriving DecidableEq

/-- The `while True` loop of `Dispatcher.wait` (lines 81-91): each
iteration calls `self.chan.wait()`; `SystemExit` breaks the loop;
`AMQPConnectionException` and `socket.error` each log "Server went away,
reconnecting..." and run `self._init()` in place; a normal return loops
again. -/
def waitSteps (cb : List String) : List WaitOutcome → Settings → DispState → WaitResult
  | [], s, d => { s := s, d := d, events := [], exited := false }
  | o :: rest, s, d =>
    match o with
    | WaitOutcome.msg =>
      let r := waitSteps cb rest s d
      { r with events := Event.chanWait :: r.events }
    | WaitOutcome.sysExit =>
      { s := s, d := d, events := [Event.chanWait], exited := true }
    | WaitOutcome.amqpConnErr =>
      let i := Dispatcher._init cb s d
      let r := waitSteps cb rest i.s i.d
      { r with events := Event.chanWait ::
          Event.logError "Server went away, reconnecting..." :: (i.events ++ r.events) }
    | WaitOutcome.sockErr =>
      let i := Dispatcher._init cb s d
      let r := waitSteps cb rest i.s i.d
      { r with events := Event.chanWait ::
          Event.logError "Server went away, reconnecting..." :: (i.events ++ r.events) }

/-- The drain sequence after the loop of `Dispatcher.wait` (lines 93-95):
`basic_cancel` for each recorded client tag, then
`self.chan.connection.close()`, then `self.chan.close()` — the connection
is closed before the channel. -/
def drainEvents (d : DispState) : List Event :=
  d.clienttags.map Event.basicCancel ++ [Event.connectionClose, Event.channelClose]

/-- `Dispatcher.wait` (lines 80-95): run the wait loop over the oracle;
when the loop was exited via `SystemExit`, the statements after the loop
run the drain sequence. -/
def Dispatcher.wait (cb : List String) (oracle : List WaitOutcome)
    (s : Settings) (d : DispState) : WaitResult :=
  let r := waitSteps cb oracle s d
  if r.exited then { r with events := r.events ++ drainEvents r.d } else r

/-- Decimal value of an ASCII digit character, else `none`. -/
def digitVal (c : Char) : Option Nat :=
  if c.toNat ≥ 48 ∧ c.toNat ≤ 57 then some (c.toNat - 48) else none

/-- Value of a non-empty run of decimal digits, else `none`. -/
def digitsVal : List Char → Option Nat → Option Nat
  | [], acc => acc
  | c :: rest, acc =>
    match digitVal c, acc with
    | some d, some n => digitsVal rest (some (n * 10 + d))
    | some d, none => digitsVal rest (some d)
    | none, _ => none

/-- `int(s)` as optparse applies it to an option of `type="int"`:
an optional leading minus sign then decimal digits, `none` when the text
is not an integer (optparse then reports a usage error). -/
def strToInt (s : String) : Option Int :=
  match s.data with
  | '-' :: rest => (digitsVal rest none).map (fun n => -(n : Int))
  | l => (digitsVal l none).map (fun n => (n : Int))

/-- The `-w` / `--workers` option of `parse_arguments` (lines 179-180):
`type="int"`, `default=2`, last occurrence wins.  This is the projection of
the optparse command line onto that one option: other words are skipped,
a dangling or non-integer value is an option error (`none`). -/
def parseWorkers : Int → List String → Option Int
  | cur, [] => some cur
  | _, "-w" :: v :: rest =>
    match strToInt v with
    | some n => parseWorkers n rest
    | none => none
  | _, "--workers" :: v :: rest =>
    match strToInt v with
    | some n => parseWorkers n rest
    | none => none
  | _, ["-w"] => none
  | _, ["--workers"] => none
  | cur, _ :: rest => parseWorkers cur rest

/-- `(opts, args) = parse_arguments(sys.argv[1:])`, restricted to
`opts.workers`. -/
def parse_arguments (args : List String) : Option Int :=
  parseWorkers 2 args

/-- One OS-level side effect of the supervisor (`main`, lines 360-390). -/
inductive SEvent where
  | fork (i : Nat) (pid : Nat)
  | kill (pid : Nat)
  | waitpid (pid : Nat)
  | lockRelease
deriving DecidableEq

/-- The fork loop of `main` (lines 363-376) as seen by the parent:
`i = 0; while i < opts.workers: newpid = os.fork(); ...;
children.append(newpid); i += 1`.  `pidOf i` is the child PID returned by
the i-th fork.  Returns the recorded `children` list from loop index `i`
on; the loop body runs only while `i < workers`, so a non-positive
`workers` forks nothing. -/
def forkLoop (pidOf : Nat → Nat) (workers : Int) (i : Nat) : List Nat :=
  if (i : Int) < workers then pidOf i :: forkLoop pidOf workers (i + 1) else []
termination_by (workers - (i : Int)).toNat
decreasing_by
  omega

/-- The fork events the parent logs: pair each loop index with the forked
PID (the parent arm logs `"%d, forked child: %d"` and appends the PID). -/
def forkEvents (pidOf : Nat → Nat) (workers : Int) : List SEvent :=
  (forkLoop pidOf workers 0).enum.map (fun p => SEvent.fork p.1 p.2)

/-- `_parent_handler` (lines 155-159): on SIGINT/SIGTERM the parent runs
`[os.kill(pid, SIGTERM) for pid in children]` — one SIGTERM per entry of
the recorded children list, in order. -/
def parent_handler (children : List Nat) : List SEvent :=
  children.map SEvent.kill

/-- What one `os.waitpid(pid, 0)` call did: returned, raised an exception
caught by the `except Exception: pass` arm, or raised something that
escapes that arm (in Python 2.6+, `SystemExit` / `KeyboardInterrupt` are
not `Exception` subclasses) and unwinds to the `finally`. -/
inductive WaitpidOutcome where
  | ok
  | exc
  | fatal
deriving DecidableEq

/-- The reap loop of `main` (lines 384-388): `for pid in children: try:
os.waitpid(pid, 0) except Exception: pass`.  Returns the waitpid attempts
made and whether the loop ran to completion (`false` when a `fatal`
outcome unwound it). -/
def reapLoop (outcome : Nat → WaitpidOutcome) : List Nat → List SEvent × Bool
  | [] => ([], true)
  | pid :: rest =>
    match outcome pid with
    | WaitpidOutcome.fatal => ([SEvent.waitpid pid], false)
    | _ =>
      let r := reapLoop outcome rest
      (SEvent.waitpid pid :: r.1, r.2)

/-- The `try: for pid in children: ... finally: pidf.release()` block of
`main` (lines 383-390): the reap loop, then — on the normal path and on
the unwinding path alike — the release of the PID lock file.  Returns the
trace and whether an exception kept propagating past the block. -/
def mainWait (outcome : Nat → WaitpidOutcome) (children : List Nat) :
    List SEvent × Bool :=
  let r := reapLoop outcome children
  (r.1 ++ [SEvent.lockRelease], !r.2)

/-- One printed line / broker call of the admin operations
(`purge_queues`, `purge_exchanges`, lines 198-241).  Channel objects are
identified by a generation number; `newChannel g` is a `conn.channel()`
call yielding generation `g`. -/
inductive AdminEvent where
  | newChannel (gen : Nat)
  | printQueues (qs : List String)
  | printExchanges (es : List String)
  | queueDelete (gen : Nat) (queue : String)
  | printDeleting (queue : String)
  | printReply (code : Nat) (text : String)
  | exchangeDelete (gen : Nat) (exchange : String)
  | connectionClose
deriving DecidableEq

/-- What the broker replied to a `queue_delete` / `exchange_delete`:
success, or an `amqp.exceptions.AMQPChannelException` carrying
`amqp_reply_code` and `amqp_reply_text`. -/
inductive DeleteOutcome where
  | ok
  | chanExc (code : Nat) (text : String)
deriving DecidableEq

/-- `get_user_confirmation` (lines 299-306): empty answer is a refusal,
only the exact answers "Y" and "y" confirm. -/
def get_user_confirmation (ans : String) : Bool :=
  if ans = "" then false
  else if ans ≠ "Y" ∧ ans ≠ "y" then false
  else true

/-- The deletion loop of `purge_queues` (lines 210-216): per queue, try
`chan.queue_delete` then print "Deleting queue ..."; on
`AMQPChannelException` print the reply code and text and rebind `chan` to
a fresh `conn.channel()` (next generation), so later deletions use the new
channel. -/
def purgeQueuesLoop (outcome : String → DeleteOutcome) :
    List String → Nat → List AdminEvent × Nat
  | [], gen => ([], gen)
  | q :: rest, gen =>
    match outcome q with
    | DeleteOutcome.ok =>
      let r := purgeQueuesLoop outcome rest gen
      (AdminEvent.queueDelete gen q :: AdminEvent.printDeleting q :: r.1, r.2)
    | DeleteOutcome.chanExc c t =>
      let r := purgeQueuesLoop outcome rest (gen + 1)
      (AdminEvent.queueDelete gen q :: AdminEvent.printReply c t ::
        AdminEvent.newChannel (gen + 1) :: r.1, r.2)

/-- `purge_queues` (lines 198-218): open a connection and channel
(generation 0), print the queue list, ask for confirmation (returning at
once on refusal), run the deletion loop, close the connection. -/
def purge_queues (queues : List String) (outcome : String → DeleteOutcome)
    (confirm : Bool) : List AdminEvent :=
  AdminEvent.newChannel 0 :: AdminEvent.printQueues queues ::
    (if confirm then (purgeQueuesLoop outcome queues 0).1 ++ [AdminEvent.connectionClose]
     else [])

/-- The deletion loop of `purge_exchanges` (lines 235-239): per exchange,
try `chan.exchange_delete`; on `AMQPChannelException` print the reply code
and text.  Unlike the queue loop, the `except` arm does not rebind `chan`,
so every deletion stays on the same channel generation. -/
def purgeExchangesLoop (outcome : String → DeleteOutcome) :
    List String → Nat → List AdminEvent
  | [], _ => []
  | e :: rest, gen =>
    match outcome e with
    | DeleteOutcome.ok =>
      AdminEvent.exchangeDelete gen e :: purgeExchangesLoop outcome rest gen
    | DeleteOutcome.chanExc c t =>
      AdminEvent.exchangeDelete gen e :: AdminEvent.printReply c t ::
        purgeExchangesLoop outcome rest gen

/-- `purge_exchanges` (lines 221-241): run `purge_queues` first, then open
a fresh connection and channel, print the exchange list, ask for
confirmation (returning at once on refusal), run the exchange deletion
loop, close the connection. -/
def purge_exchanges (queues exchanges : List String)
    (qOutcome eOutcome : String → DeleteOutcome)
    (confirmQ confirmE : Bool) : List AdminEvent :=
  purge_queues queues qOutcome confirmQ ++
    AdminEvent.newChannel 0 :: AdminEvent.printExchanges exchanges ::
    (if confirmE then purgeExchangesLoop eOutcome exchanges 0 ++ [AdminEvent.connectionClose]
     else [])

/-- One printed line / broker call of `drain_queue` (lines 244-288). -/
inductive DrainEvent where
  | printNotConfigured (queue : String)
  | printToBeDrained (queue : String)
  | printNotBound (queue : String)
  | queueBind (queue exchange routingKey : String)
  | basicConsume (queue : String)
  | chanWait
  | printIgnored (count : Nat)
deriving DecidableEq

/-- How a run of `drain_queue` ends, when it does not simply return:
reading the never-assigned `exch` raises `NameError`; the termination
signal converted by `_exit_handler` raises `SystemExit` out of the
`while True` loop (nothing in `drain_queue` catches it, so the
`basic_cancel` / close lines after the loop are unreachable). -/
inductive PyError where
  | nameError
  | systemExit
deriving DecidableEq

/-- The exchange-lookup loop of `drain_queue` (lines 263-265): `for binding
in settings.BINDINGS: if binding[0] == queue: exch = binding[1]`.  The
accumulator is the Python local `exch`: `none` models the variable never
having been assigned; a later match overwrites an earlier one. -/
def lookupExch (bindings : List Binding) (queue : String) : Option String :=
  bindings.foldl (fun acc b => if b.queue = queue then some b.exchange else acc) none

/-- `drain_queue` (lines 244-288): early return on a falsy queue name, on a
queue outside `settings.QUEUES`, and on refused confirmation; then the
exchange-lookup loop, whose local `exch` is read by `if not exch:` —
a `NameError` when no binding ever assigned it; otherwise bind the queue
under the catch-all key `#`, consume with the dummy handler, and spin in
`while True: chan.wait()` printing a running count until the termination
signal raises `SystemExit` (uncaught) after `waits` delivered messages.
Returns the trace and the uncaught exception, if any. -/
def drain_queue (s : Settings) (queue : String) (ans : String) (waits : Nat) :
    List DrainEvent × Option PyError :=
  if queue = "" then ([], none)
  else if !(s.QUEUES.contains queue) then ([DrainEvent.printNotConfigured queue], none)
  else if !(get_user_confirmation ans) then ([DrainEvent.printToBeDrained queue], none)
  else
    match lookupExch s.BINDINGS queue with
    | none => ([DrainEvent.printToBeDrained queue], some PyError.nameError)
    | some exch =>
      if exch = "" then
        ([DrainEvent.printToBeDrained queue, DrainEvent.printNotBound queue], none)
      else
        (DrainEvent.printToBeDrained queue ::
          DrainEvent.queueBind queue exch "#" ::
          DrainEvent.basicConsume queue ::
          (List.range waits).flatMap
            (fun n => [DrainEvent.chanWait, DrainEvent.printIgnored (n + 1)]) ++
          [DrainEvent.chanWait],
         some PyError.systemExit)

/-- The `(queue, exchange, routing_key)` triples of the `queue_bind` calls
in a worker trace, in order. -/
def queueBinds (evs : List Event) : List (String × String × String) :=
  evs.filterMap (fun e =>
    match e with
    | Event.queueBind q ex rk => some (q, ex, rk)
    | _ => none)

/-- The queues of the `basic_consume` calls in a worker trace, in order. -/
def consumedQueues (evs : List Event) : List String :=
  evs.filterMap (fun e =>
    match e with
    | Event.basicConsume q _ _ => some q
    | _ => none)

/-- The messages of the error-level log calls in a worker trace, in order. -/
def errorLogs (evs : List Event) : List String :=
  evs.filterMap (fun e =>
    match e with
    | Event.logError m => some m
    | _ => none)

/-- The queues of the `queue_delete` attempts in an admin trace, in order. -/
def attemptedQueues (evs : List AdminEvent) : List String :=
  evs.filterMap (fun e =>
    match e with
    | AdminEvent.queueDelete _ q => some q
    | _ => none)

/-- The queues whose deletion succeeded (the "Deleting queue ..." print
runs only when `queue_delete` did not raise), in order. -/
def deletedQueues (evs : List AdminEvent) : List String :=
  evs.filterMap (fun e =>
    match e with
    | AdminEvent.printDeleting q => some q
    | _ => none)

/-- The exchanges of the `exchange_delete` attempts in an admin trace, in
order. -/
def attemptedExchanges (evs : List AdminEvent) : List String :=
  evs.filterMap (fun e =>
    match e with
    | AdminEvent.exchangeDelete _ e => some e
    | _ => none)

/-- The `(reply_code, reply_text)` pairs printed by the exception arms of
the admin loops, in order. -/
def replyPrints (evs : List AdminEvent) : List (Nat × String) :=
  evs.filterMap (fun e =>
    match e with
    | AdminEvent.printReply c t => some (c, t)
    | _ => none)

/-- The channel generations created by `conn.channel()` calls in an admin
trace, in order. -/
def newChannels (evs : List AdminEvent) : List Nat :=
  evs.filterMap (fun e =>
    match e with
    | AdminEvent.newChannel g => some g
    | _ => none)

/-- Registry fixture: only the handler name "known" resolves. -/
def cbK : List String := ["known"]

/-- Binding fixture whose handler resolves. -/
def bK1 : Binding := ⟨"q1", "e1", "rk1", "known"⟩

/-- Binding fixture whose handler does not resolve. -/
def bK2 : Binding := ⟨"q2", "e1", "rk2", "unknown"⟩

/-- Settings fixture for the missing-handler scenario (non-debug). -/
def sK : Settings := ⟨["e1"], ["q1", "q2"], [bK1, bK2], "qdbg", [], false⟩

/-- Fresh dispatcher state, debug off. -/
def dK : DispState := ⟨false, [], 0⟩

/-- Registry fixture for the debug-mode scenario. -/
def cbD : List String := ["h1", "h2"]

/-- Production binding fixture for the debug-mode scenario. -/
def bD1 : Binding := ⟨"q", "e", "rk1", "h1"⟩

/-- Debug binding fixture. -/
def bD2 : Binding := ⟨"qdbg", "e", "rkd", "h2"⟩

/-- Settings fixture with `DEBUG = True` and one debug binding. -/
def sD : Settings := ⟨["e"], ["q"], [bD1], "qdbg", [bD2], true⟩

/-- Fresh dispatcher state, debug on. -/
def dD : DispState := ⟨true, [], 0⟩

/-- Registry fixture for the wait-loop scenarios. -/
def cbW : List String := ["h"]

/-- Settings fixture for the wait-loop scenarios: one queue, one binding. -/
def sW : Settings := ⟨[], ["q"], [⟨"q", "e", "rk", "h"⟩], "qd", [], false⟩

/-- Fresh dispatcher state for the wait-loop scenarios. -/
def dW0 : DispState := ⟨false, [], 0⟩

/-- Connection oracle fixture: the first two attempts fail, the third
(index 2) succeeds. -/
def okTwo : Nat → Bool := fun j => decide (j = 2)

/-- PID oracle fixture: the i-th fork returns PID 101 + i. -/
def pid101 : Nat → Nat := fun i => 101 + i

/-- The children list of the spec's supervisor example. -/
def children123 : List Nat := [101, 102, 103]

/-- Waitpid oracle fixture: every child reaps cleanly. -/
def okOutcome : Nat → WaitpidOutcome := fun _ => WaitpidOutcome.ok

/-- Waitpid oracle fixture: child 102 raises an `Exception`-class error. -/
def excAt102 : Nat → WaitpidOutcome := fun p => if p = 102 then WaitpidOutcome.exc else WaitpidOutcome.ok

/-- Waitpid oracle fixture: every wait raises an error that escapes the
`except Exception` arm. -/
def fatalAll : Nat → WaitpidOutcome := fun _ => WaitpidOutcome.fatal

/-- Queue-deletion oracle fixture: deleting qA raises a channel exception,
qB succeeds. -/
def ocAB : String → DeleteOutcome :=
  fun q => if q = "qA" then DeleteOutcome.chanExc 406 "PRECONDITION_FAILED" else DeleteOutcome.ok

/-- Deletion oracle fixture: every deletion succeeds. -/
def ocOk : String → DeleteOutcome := fun _ => DeleteOutcome.ok

/-- Exchange-deletion oracle fixture: deleting eA raises a channel
exception, eB succeeds. -/
def ocE : String → DeleteOutcome :=
  fun e => if e = "eA" then DeleteOutcome.chanExc 406 "exchange in use" else DeleteOutcome.ok

/-- Settings fixture for drain-queue: qX is configured but no binding
references it. -/
def sX : Settings := ⟨[], ["qX"], [⟨"other", "e", "rk", "h"⟩], "qd", [], false⟩

theorem bindLoop_fst (cb : List String) (bs : List Binding) :
    ∀ (tags : List Nat) (next : Nat),
      (bindLoop cb bs tags next).1 = tags ++ bindTags cb bs next := by
  induction bs with
  | nil => intro tags next; simp [bindLoop, bindTags]
  | cons b rest ih =>
    intro tags next
    by_cases h : b.handler ∈ cb <;>
      simp [bindLoop, bindTags, h, ih]

theorem bindLoop_queueBinds (cb : List String) (bs : List Binding) :
    ∀ (tags : List Nat) (next : Nat),
      queueBinds (bindLoop cb bs tags next).2.2 =
        (bs.filter (fun b => cb.contains b.handler)).map
          (fun b => (b.queue, b.exchange, b.routingKey)) := by
  induction bs with
  | nil => intro tags next; simp [bindLoop, queueBinds]
  | cons b rest ih =>
    intro tags next
    by_cases h : b.handler ∈ cb <;>
      simp only [queueBinds] at ih ⊢ <;>
      simp [bindLoop, List.filterMap_cons, h, ih]

theorem bindLoop_consumedQueues (cb : List String) (bs : List Binding) :
    ∀ (tags : List Nat) (next : Nat),
      consumedQueues (bindLoop cb bs tags next).2.2 =
        (bs.filter (fun b => cb.contains b.handler)).map (fun b => b.queue) := by
  induction bs with
  | nil => intro tags next; simp [bindLoop, consumedQueues]
  | cons b rest ih =>
    intro tags next
    by_cases h : b.handler ∈ cb <;>
      simp only [consumedQueues] at ih ⊢ <;>
      simp [bindLoop, List.filterMap_cons, h, ih]

theorem bindLoop_errorLogs (cb : List String) (bs : List Binding) :
    ∀ (tags : List Nat) (next : Nat),
      errorLogs (bindLoop cb bs tags next).2.2 =
        (bs.filter (fun b => !(cb.contains b.handler))).map
          (fun b => "Cannot find callback " ++ b.handler) := by
  induction bs with
  | nil => intro tags next; simp [bindLoop, errorLogs]
  | cons b rest ih =>
    intro tags next
    by_cases h : b.handler ∈ cb <;>
      simp only [errorLogs] at ih ⊢ <;>
      simp [bindLoop, List.filterMap_cons, h, ih]

theorem init_clienttags (cb : List String) (s : Settings) (d : DispState) :
    (Dispatcher._init cb s d).d.clienttags =
      d.clienttags ++ bindTags cb (initBindings s d) d.nextTag := by
  simp [Dispatcher._init, bindLoop_fst]

theorem init_settings_fields (cb : List String) (s : Settings) (d : DispState) :
    (Dispatcher._init cb s d).s.EXCHANGES = s.EXCHANGES ∧
    (Dispatcher._init cb s d).s.QUEUES = s.QUEUES ∧
    (Dispatcher._init cb s d).s.QUEUE_DEBUG = s.QUEUE_DEBUG ∧
    (Dispatcher._init cb s d).s.BINDINGS_DEBUG = s.BINDINGS_DEBUG ∧
    (Dispatcher._init cb s d).s.DEBUG = s.DEBUG ∧
    (Dispatcher._init cb s d).s.BINDINGS = initBindings s d ∧
    (Dispatcher._init cb s d).d.debug = d.debug := by
  by_cases h : (d.debug && s.DEBUG) = true <;>
    simp [Dispatcher._init, initBindings, h]

theorem waitSteps_exited (cb : List String) (oracle : List WaitOutcome) :
    ∀ (s : Settings) (d : DispState), WaitOutcome.sysExit ∈ oracle →
      (waitSteps cb oracle s d).exited = true := by
  induction oracle with
  | nil => intro s d h; simp at h
  | cons o rest ih =>
    intro s d h
    cases o with
    | msg =>
      have hm : WaitOutcome.sysExit ∈ rest := by simpa using h
      simp [waitSteps, ih _ _ hm]
    | sysExit => simp [waitSteps]
    | amqpConnErr =>
      have hm : WaitOutcome.sysExit ∈ rest := by simpa using h
      simp [waitSteps, ih _ _ hm]
    | sockErr =>
      have hm : WaitOutcome.sysExit ∈ rest := by simpa using h
      simp [waitSteps, ih _ _ hm]

/-- C1 counterexample: in the drain sequence the code closes the
connection (`self.chan.connection.close()`, line 94) before it closes the
channel (`self.chan.close()`, line 95).  On a worker holding one consumer
tag that receives a termination signal, the trace ends with
`connectionClose` then `channelClose`, not with the claimed
channel-then-connection order. -/
theorem wait_drain_close_order_cex :
    (Dispatcher.wait cbW [WaitOutcome.sysExit] sW (Dispatcher._init cbW sW dW0).d).events =
      [Event.chanWait, Event.basicCancel 0, Event.connectionClose, Event.channelClose] ∧
    (Dispatcher.wait cbW [WaitOutcome.sysExit] sW (Dispatcher._init cbW sW dW0).d).events ≠
      [Event.chanWait, Event.basicCancel 0, Event.channelClose, Event.connectionClose] := by
  decide

/-- C1 (amended): when the wait loop exits via the shutdown path
(`SystemExit` in the oracle), the worker cancels every outstanding
consumer tag, then closes the connection, then closes the channel. -/
theorem wait_drain_sequence (cb : List String) (oracle : List WaitOutcome)
    (s : Settings) (d : DispState) (h : WaitOutcome.sysExit ∈ oracle) :
    (Dispatcher.wait cb oracle s d).events =
      (waitSteps cb oracle s d).events ++
        (waitSteps cb oracle s d).d.clienttags.map Event.basicCancel ++
        [Event.connectionClose, Event.channelClose] := by
  have he := waitSteps_exited cb oracle s d h
  simp [Dispatcher.wait, he, drainEvents]

/-- C1 witness: the amended drain order at a concrete shutdown. -/
theorem wait_drain_sequence_witness :
    (Dispatcher.wait cbW [WaitOutcome.sysExit] sW (Dispatcher._init cbW sW dW0).d).events =
      (waitSteps cbW [WaitOutcome.sysExit] sW (Dispatcher._init cbW sW dW0).d).events ++
        (waitSteps cbW [WaitOutcome.sysExit] sW (Dispatcher._init cbW sW dW0).d).d.clienttags.map
          Event.basicCancel ++
        [Event.connectionClose, Event.channelClose] :=
  wait_drain_sequence cbW [WaitOutcome.sysExit] sW (Dispatcher._init cbW sW dW0).d (by decide)

/-- C2 counterexample: `_init` never clears `self.clienttags`, so after a
reconnect the recorded tags are the old tag 0 followed by the fresh tag 1
— not just the re-registration tag 1 as the claim states. -/
theorem wait_reconnect_tags_cex :
    (Dispatcher.wait cbW [WaitOutcome.sockErr] sW (Dispatcher._init cbW sW dW0).d).d.clienttags
      = [0, 1] ∧
    bindTags cbW
      (initBindings sW (Dispatcher._init cbW sW dW0).d)
      (Dispatcher._init cbW sW dW0).d.nextTag = [1] ∧
    ([0, 1] : List Nat) ≠ [1] := by
  decide

/-- C2 (amended): on a connection-level error (`socket.error` or
`AMQPConnectionException`) raised while waiting, the worker logs "Server
went away, reconnecting...", re-initializes in place, and keeps looping;
after re-initialization its recorded consumer tags are the previously
recorded tags followed by the tags obtained during re-registration (the
old tags are retained, not replaced). -/
theorem wait_reconnect_behavior (cb : List String) (o : WaitOutcome)
    (rest : List WaitOutcome) (s : Settings) (d : DispState)
    (h : o = WaitOutcome.sockErr ∨ o = WaitOutcome.amqpConnErr) :
    (waitSteps cb (o :: rest) s d).events =
      Event.chanWait :: Event.logError "Server went away, reconnecting..." ::
        ((Dispatcher._init cb s d).events ++
          (waitSteps cb rest (Dispatcher._init cb s d).s (Dispatcher._init cb s d).d).events) ∧
    (waitSteps cb (o :: rest) s d).exited =
      (waitSteps cb rest (Dispatcher._init cb s d).s (Dispatcher._init cb s d).d).exited ∧
    (waitSteps cb (o :: rest) s d).s =
      (waitSteps cb rest (Dispatcher._init cb s d).s (Dispatcher._init cb s d).d).s ∧
    (waitSteps cb (o :: rest) s d).d =
      (waitSteps cb rest (Dispatcher._init cb s d).s (Dispatcher._init cb s d).d).d ∧
    (Dispatcher._init cb s d).d.clienttags =
      d.clienttags ++ bindTags cb (initBindings s d) d.nextTag := by
  rcases h with h | h <;> subst h <;>
    simp [waitSteps, init_clienttags]

/-- C2 witness: the amended reconnect behavior at a concrete socket
error. -/
theorem wait_reconnect_behavior_witness :
    (Dispatcher._init cbW sW (Dispatcher._init cbW sW dW0).d).d.clienttags =
      (Dispatcher._init cbW sW dW0).d.clienttags ++
        bindTags cbW
          (initBindings sW (Dispatcher._init cbW sW dW0).d)
          (Dispatcher._init cbW sW dW0).d.nextTag :=
  (wait_reconnect_behavior cbW WaitOutcome.sockErr [] sW
    (Dispatcher._init cbW sW dW0).d (Or.inl rfl)).2.2.2.2

/-- C3 counterexample: in debug mode `bindings += settings.BINDINGS_DEBUG`
extends `settings.BINDINGS` in place, so a second `_init` run iterates
over the debug bindings twice: the first run binds `[bD1, bD2]`, the
second `[bD1, bD2, bD2]`, and the two runs' `queue_bind` traces differ —
the claim that the second run declares and binds exactly the same set,
including in debug mode, is false. -/
theorem init_twice_debug_cex :
    initBindings sD dD = [bD1, bD2] ∧
    initBindings (Dispatcher._init cbD sD dD).s (Dispatcher._init cbD sD dD).d =
      [bD1, bD2, bD2] ∧
    queueBinds (Dispatcher._init cbD
        (Dispatcher._init cbD sD dD).s (Dispatcher._init cbD sD dD).d).events ≠
      queueBinds (Dispatcher._init cbD sD dD).events := by
  decide

/-- C3 (amended): running `_init` twice produces no error and never
changes the declared exchange and queue sets; outside debug mode the
settings are untouched and the second run binds exactly the same binding
list as the first; in debug mode each run appends the debug bindings to
the configured binding list in place, so the second run's binding list is
the first run's list with the debug bindings appended once more. -/
theorem init_twice_topology (cb : List String) (s : Settings) (d : DispState) :
    (Dispatcher._init cb s d).s.EXCHANGES = s.EXCHANGES ∧
    (Dispatcher._init cb s d).s.QUEUES = s.QUEUES ∧
    (Dispatcher._init cb s d).s.QUEUE_DEBUG = s.QUEUE_DEBUG ∧
    initBindings (Dispatcher._init cb s d).s (Dispatcher._init cb s d).d =
      initBindings s d ++ (if d.debug && s.DEBUG then s.BINDINGS_DEBUG else []) ∧
    ((d.debug && s.DEBUG) = false → (Dispatcher._init cb s d).s = s) := by
  by_cases h : (d.debug && s.DEBUG) = true <;>
    simp [Dispatcher._init, initBindings, h]

/-- C3 witness: outside debug mode a second run binds the same list and
the settings are unchanged. -/
theorem init_twice_topology_witness :
    initBindings (Dispatcher._init cbK sK dK).s (Dispatcher._init cbK sK dK).d =
      initBindings sK dK ++ (if dK.debug && sK.DEBUG then sK.BINDINGS_DEBUG else []) ∧
    (Dispatcher._init cbK sK dK).s = sK :=
  ⟨(init_twice_topology cbK sK dK).2.2.2.1,
   (init_twice_topology cbK sK dK).2.2.2.2 (by decide)⟩

theorem queueBinds_exchangeDeclares (l : List String) :
    queueBinds (l.map (fun e => Event.exchangeDeclare e "topic" true false)) = [] := by
  simp [queueBinds]

theorem queueBinds_queueDeclares (l : List String) :
    queueBinds (l.map (fun q => Event.queueDeclare q true false false)) = [] := by
  simp [queueBinds]

theorem consumedQueues_exchangeDeclares (l : List String) :
    consumedQueues (l.map (fun e => Event.exchangeDeclare e "topic" true false)) = [] := by
  simp [consumedQueues]

theorem consumedQueues_queueDeclares (l : List String) :
    consumedQueues (l.map (fun q => Event.queueDeclare q true false false)) = [] := by
  simp [consumedQueues]

theorem errorLogs_exchangeDeclares (l : List String) :
    errorLogs (l.map (fun e => Event.exchangeDeclare e "topic" true false)) = [] := by
  simp [errorLogs]

theorem errorLogs_queueDeclares (l : List String) :
    errorLogs (l.map (fun q => Event.queueDeclare q true false false)) = [] := by
  simp [errorLogs]

theorem init_queueBinds (cb : List String) (s : Settings) (d : DispState) :
    queueBinds (Dispatcher._init cb s d).events =
      ((initBindings s d).filter (fun b => decide (b.handler ∈ cb))).map
        (fun b => (b.queue, b.exchange, b.routingKey)) := by
  have hb := bindLoop_queueBinds cb (initBindings s d) d.clienttags d.nextTag
  have hEx := queueBinds_exchangeDeclares s.EXCHANGES
  have hQ := queueBinds_queueDeclares s.QUEUES
  simp only [queueBinds] at hb hEx hQ ⊢
  by_cases h : (d.debug && s.DEBUG) = true <;>
    simp [Dispatcher._init, h, List.filterMap_append, List.filterMap_cons, hb, hEx, hQ]

theorem init_consumedQueues (cb : List String) (s : Settings) (d : DispState) :
    consumedQueues (Dispatcher._init cb s d).events =
      ((initBindings s d).filter (fun b => decide (b.handler ∈ cb))).map
        (fun b => b.queue) := by
  have hb := bindLoop_consumedQueues cb (initBindings s d) d.clienttags d.nextTag
  have hEx := consumedQueues_exchangeDeclares s.EXCHANGES
  have hQ := consumedQueues_queueDeclares s.QUEUES
  simp only [consumedQueues] at hb hEx hQ ⊢
  by_cases h : (d.debug && s.DEBUG) = true <;>
    simp [Dispatcher._init, h, List.filterMap_append, List.filterMap_cons, hb, hEx, hQ]

theorem init_errorLogs (cb : List String) (s : Settings) (d : DispState) :
    errorLogs (Dispatcher._init cb s d).events =
      ((initBindings s d).filter (fun b => !decide (b.handler ∈ cb))).map
        (fun b => "Cannot find callback " ++ b.handler) := by
  have hb := bindLoop_errorLogs cb (initBindings s d) d.clienttags d.nextTag
  have hEx := errorLogs_exchangeDeclares s.EXCHANGES
  have hQ := errorLogs_queueDeclares s.QUEUES
  simp only [errorLogs] at hb hEx hQ ⊢
  by_cases h : (d.debug && s.DEBUG) = true <;>
    simp [Dispatcher._init, h, List.filterMap_append, List.filterMap_cons, hb, hEx, hQ]

/-- C4: during topology registration a binding whose handler name does
not resolve is skipped with a logged omission while every other binding is
bound and consumed — in general, the bound, consumed and logged lists are
exactly the resolvable/unresolvable partitions of the binding list, in
order; and on the spec's concrete scenario `[(q1,e1,rk1,"known"),
(q2,e1,rk2,"unknown")]`, initialization completes with q1 bound and
consuming, q2 not bound, and exactly one omission logged. -/
theorem missing_handler_isolation :
    (∀ (cb : List String) (s : Settings) (d : DispState),
      queueBinds (Dispatcher._init cb s d).events =
        ((initBindings s d).filter (fun b => decide (b.handler ∈ cb))).map
          (fun b => (b.queue, b.exchange, b.routingKey)) ∧
      consumedQueues (Dispatcher._init cb s d).events =
        ((initBindings s d).filter (fun b => decide (b.handler ∈ cb))).map
          (fun b => b.queue) ∧
      errorLogs (Dispatcher._init cb s d).events =
        ((initBindings s d).filter (fun b => !decide (b.handler ∈ cb))).map
          (fun b => "Cannot find callback " ++ b.handler)) ∧
    queueBinds (Dispatcher._init cbK sK dK).events = [("q1", "e1", "rk1")] ∧
    consumedQueues (Dispatcher._init cbK sK dK).events = ["q1"] ∧
    errorLogs (Dispatcher._init cbK sK dK).events = ["Cannot find callback unknown"] := by
  refine ⟨fun cb s d => ⟨init_queueBinds cb s d, init_consumedQueues cb s d,
    init_errorLogs cb s d⟩, ?_, ?_, ?_⟩ <;> decide

theorem connect_loop_first_success (ok : Nat → Bool) :
    ∀ (fuel n k : Nat), (∀ j, j < n → ok (k + j) = false) → ok (k + n) = true →
      n < fuel →
      (connect_loop ok fuel k).2 = some (k + n) ∧
      (connect_loop ok fuel k).1.count (Event.sleep 1) = n ∧
      ∀ m, Event.sleep m ∈ (connect_loop ok fuel k).1 → m = 1 := by
  intro fuel
  induction fuel with
  | zero => intro n k _ _ hlt; omega
  | succ fuel ih =>
    intro n k hfail hsucc _hlt
    cases n with
    | zero =>
      have h0 : ok k = true := by simpa using hsucc
      refine ⟨?_, ?_, ?_⟩ <;> simp [connect_loop, h0]
    | succ n =>
      have h0 : ok k = false := by simpa using hfail 0 (Nat.succ_pos n)
      have hlt' : n < fuel := by omega
      have hfail' : ∀ j, j < n → ok (k + 1 + j) = false := by
        intro j hj
        have := hfail (j + 1) (by omega)
        have harith : k + (j + 1) = k + 1 + j := by omega
        rwa [harith] at this
      have hsucc' : ok (k + 1 + n) = true := by
        have harith : k + (n + 1) = k + 1 + n := by omega
        rwa [harith] at hsucc
      obtain ⟨ha, hb, hc⟩ := ih n (k + 1) hfail' hsucc' hlt'
      refine ⟨?_, ?_, ?_⟩
      · have harith : k + 1 + n = k + (n + 1) := by omega
        simp only [connect_loop, h0]
        rw [← harith]
        exact ha
      · simp only [connect_loop, h0]
        simp [List.count_cons, hb]
      · intro m hm
        simp [connect_loop, h0] at hm
        rcases hm with h | h
        · exact h
        · exact hc m h

theorem connect_loop_success_only (ok : Nat → Bool) :
    ∀ (fuel k j : Nat), (connect_loop ok fuel k).2 = some j → ok j = true := by
  intro fuel
  induction fuel with
  | zero => intro k j h; simp [connect_loop] at h
  | succ fuel ih =>
    intro k j h
    by_cases hk : ok k = true
    · simp [connect_loop, hk] at h
      rwa [← h]
    · simp only [connect_loop, hk] at h
      simp at h
      exact ih (k + 1) j h

theorem connect_loop_no_success_none (ok : Nat → Bool) (hall : ∀ j, ok j = false) :
    ∀ (fuel k : Nat), (connect_loop ok fuel k).2 = none := by
  intro fuel
  induction fuel with
  | zero => intro k; simp [connect_loop]
  | succ fuel ih => intro k; simp [connect_loop, hall k, ih]

/-- C5: the connection step retries on every connectivity failure with a
fixed one-second sleep per failure and returns to its caller only once a
connection attempt has succeeded: when the first success is attempt n, the
loop returns that connection after exactly n one-second sleeps (every
sleep is one second); whatever it returns is a successful attempt; and
when every attempt fails it never returns a result, for any bound on the
number of attempts unfolded — no connectivity error is ever surfaced. -/
theorem connect_retry_policy (ok : Nat → Bool) (fuel n : Nat) :
    ((∀ j, j < n → ok j = false) → ok n = true → n < fuel →
      (connect_loop ok fuel 0).2 = some n ∧
      (connect_loop ok fuel 0).1.count (Event.sleep 1) = n ∧
      ∀ m, Event.sleep m ∈ (connect_loop ok fuel 0).1 → m = 1) ∧
    (∀ k j, (connect_loop ok fuel k).2 = some j → ok j = true) ∧
    ((∀ j, ok j = false) → ∀ k, (connect_loop ok fuel k).2 = none) := by
  refine ⟨fun hfail hsucc hlt => ?_, fun k j => connect_loop_success_only ok fuel k j,
    fun hall k => connect_loop_no_success_none ok hall fuel k⟩
  have h := connect_loop_first_success ok fuel n 0 (by simpa using hfail)
    (by simpa using hsucc) hlt
  simpa using h

/-- C5 witness: with the first two attempts failing and the third
succeeding, the loop returns attempt 2 after exactly two one-second
sleeps. -/
theorem connect_retry_policy_witness :
    (connect_loop okTwo 5 0).2 = some 2 ∧
    (connect_loop okTwo 5 0).1.count (Event.sleep 1) = 2 := by
  have h := (connect_retry_policy okTwo 5 2).1 (by decide) (by decide) (by decide)
  exact ⟨h.1, h.2.1⟩

theorem forkLoop_eq (pidOf : Nat → Nat) (n : Nat) :
    ∀ i, forkLoop pidOf (n : Int) i = (List.range' i (n - i)).map pidOf := by
  have key : ∀ (k i : Nat), n - i = k →
      forkLoop pidOf (n : Int) i = (List.range' i k).map pidOf := by
    intro k
    induction k with
    | zero =>
      intro i hi
      rw [forkLoop]
      have hnot : ¬((i : Int) < (n : Int)) := by omega
      simp [hnot, List.range']
    | succ k ih =>
      intro i hi
      rw [forkLoop]
      have hlt : ((i : Int) < (n : Int)) := by omega
      rw [if_pos hlt, ih (i + 1) (by omega)]
      rfl
  exact fun i => key (n - i) i rfl

theorem kill_injective : Function.Injective SEvent.kill := by
  intro a b h
  injection h

theorem reapLoop_no_fatal (outcome : Nat → WaitpidOutcome) :
    ∀ (cs : List Nat), (∀ p ∈ cs, outcome p ≠ WaitpidOutcome.fatal) →
      reapLoop outcome cs = (cs.map SEvent.waitpid, true) := by
  intro cs
  induction cs with
  | nil => intro _; rfl
  | cons p rest ih =>
    intro h
    have hp := h p (by simp)
    have hrest : ∀ q ∈ rest, outcome q ≠ WaitpidOutcome.fatal :=
      fun q hq => h q (by simp [hq])
    cases hout : outcome p with
    | fatal => exact absurd hout hp
    | ok => simp [reapLoop, hout, ih hrest]
    | exc => simp [reapLoop, hout, ih hrest]

/-- C6: the supervisor forks exactly n workers — n from the `--workers`
option, default 2 — recording each child PID in order; the parent signal
handler sends one terminate signal per recorded child PID (exactly once
per PID when the PIDs are distinct); and the supervisor releases its lock
and returns only after attempting `waitpid` on every recorded child
PID. -/
theorem supervisor_fork_signal_wait :
    (parse_arguments [] = some 2 ∧ parse_arguments ["-w", "3"] = some 3 ∧
      parse_arguments ["--workers", "5"] = some 5) ∧
    (∀ (pidOf : Nat → Nat) (n : Nat),
      forkLoop pidOf (n : Int) 0 = (List.range n).map pidOf ∧
      (forkLoop pidOf (n : Int) 0).length = n) ∧
    (∀ (children : List Nat) (pid : Nat),
      (parent_handler children).count (SEvent.kill pid) = children.count pid) ∧
    (∀ (children : List Nat), children.Nodup → ∀ pid ∈ children,
      (parent_handler children).count (SEvent.kill pid) = 1) ∧
    (∀ (outcome : Nat → WaitpidOutcome) (children : List Nat),
      (∀ p ∈ children, outcome p ≠ WaitpidOutcome.fatal) →
      (mainWait outcome children).1 = children.map SEvent.waitpid ++ [SEvent.lockRelease]) := by
  refine ⟨⟨by decide, by decide, by decide⟩, fun pidOf n => ?_, fun children pid => ?_,
    fun children hnd pid hpid => ?_, fun outcome children h => ?_⟩
  · have h := forkLoop_eq pidOf n 0
    simp only [Nat.sub_zero] at h
    rw [h, ← List.range_eq_range']
    simp
  · exact List.count_map_of_injective children SEvent.kill kill_injective pid
  · rw [parent_handler, List.count_map_of_injective children SEvent.kill kill_injective pid]
    exact List.count_eq_one_of_mem hnd hpid
  · simp [mainWait, reapLoop_no_fatal outcome children h]

/-- C6 witness: the supervisor behavior on the spec's three-children
example, with every `waitpid` succeeding. -/
theorem supervisor_fork_signal_wait_witness :
    forkLoop pid101 ((3 : Nat) : Int) 0 = [101, 102, 103] ∧
    (parent_handler children123).count (SEvent.kill 101) = 1 ∧
    (parent_handler children123).count (SEvent.kill 102) = 1 ∧
    (parent_handler children123).count (SEvent.kill 103) = 1 ∧
    (mainWait okOutcome children123).1 =
      [SEvent.waitpid 101, SEvent.waitpid 102, SEvent.waitpid 103, SEvent.lockRelease] := by
  obtain ⟨_hargs, hfork, _hcount, hone, hwait⟩ := supervisor_fork_signal_wait
  refine ⟨?_, hone children123 (by decide) 101 (by decide),
    hone children123 (by decide) 102 (by decide),
    hone children123 (by decide) 103 (by decide), ?_⟩
  · rw [(hfork pid101 3).1]
    decide
  · rw [hwait okOutcome children123 (fun p _ => by simp [okOutcome])]
    decide

/-- C7: the child-reaping of the supervisor is best-effort — when no wait
raises an error that escapes the `except Exception` arm, every recorded
child is waited on, whatever mix of clean exits and caught exceptions the
waits produce — and the PID lock file is released on every path, including
when an error unwinds the reap loop. -/
theorem reap_best_effort_lock_release :
    (∀ (outcome : Nat → WaitpidOutcome) (children : List Nat),
      (∀ p ∈ children, outcome p ≠ WaitpidOutcome.fatal) →
      (reapLoop outcome children).1 = children.map SEvent.waitpid) ∧
    (∀ (outcome : Nat → WaitpidOutcome) (children : List Nat),
      SEvent.lockRelease ∈ (mainWait outcome children).1) := by
  constructor
  · intro outcome children h
    rw [reapLoop_no_fatal outcome children h]
  · intro outcome children
    simp [mainWait]

/-- C7 witness: with child 102 raising a caught exception all three
children are still waited on, and with every wait raising an escaping
error the lock is still released. -/
theorem reap_best_effort_lock_release_witness :
    (reapLoop excAt102 children123).1 =
      [SEvent.waitpid 101, SEvent.waitpid 102, SEvent.waitpid 103] ∧
    SEvent.lockRelease ∈ (mainWait fatalAll children123).1 := by
  obtain ⟨hreap, hlock⟩ := reap_best_effort_lock_release
  refine ⟨?_, hlock fatalAll children123⟩
  rw [hreap excAt102 children123 (by decide)]
  decide

theorem purgeQueuesLoop_attempted (outcome : String → DeleteOutcome) :
    ∀ (qs : List String) (gen : Nat),
      attemptedQueues (purgeQueuesLoop outcome qs gen).1 = qs := by
  intro qs
  induction qs with
  | nil => intro gen; rfl
  | cons q rest ih =>
    intro gen
    cases hout : outcome q with
    | ok =>
      have h := ih gen
      simp only [attemptedQueues] at h ⊢
      simp [purgeQueuesLoop, hout, List.filterMap_cons, h]
    | chanExc c t =>
      have h := ih (gen + 1)
      simp only [attemptedQueues] at h ⊢
      simp [purgeQueuesLoop, hout, List.filterMap_cons, h]

theorem purgeQueuesLoop_deleted (outcome : String → DeleteOutcome) :
    ∀ (qs : List String) (gen : Nat),
      deletedQueues (purgeQueuesLoop outcome qs gen).1 =
        qs.filter (fun q => decide (outcome q = DeleteOutcome.ok)) := by
  intro qs
  induction qs with
  | nil => intro gen; rfl
  | cons q rest ih =>
    intro gen
    cases hout : outcome q with
    | ok =>
      have h := ih gen
      simp only [deletedQueues] at h ⊢
      simp [purgeQueuesLoop, hout, List.filterMap_cons, h]
    | chanExc c t =>
      have h := ih (gen + 1)
      simp only [deletedQueues] at h ⊢
      simp [purgeQueuesLoop, hout, List.filterMap_cons, h]

theorem purgeQueuesLoop_replies (outcome : String → DeleteOutcome) :
    ∀ (qs : List String) (gen : Nat),
      replyPrints (purgeQueuesLoop outcome qs gen).1 =
        qs.filterMap (fun q =>
          match outcome q with
          | DeleteOutcome.chanExc c t => some (c, t)
          | DeleteOutcome.ok => none) := by
  intro qs
  induction qs with
  | nil => intro gen; rfl
  | cons q rest ih =>
    intro gen
    cases hout : outcome q with
    | ok =>
      have h := ih gen
      simp only [replyPrints] at h ⊢
      simp [purgeQueuesLoop, hout, List.filterMap_cons, h]
    | chanExc c t =>
      have h := ih (gen + 1)
      simp only [replyPrints] at h ⊢
      simp [purgeQueuesLoop, hout, List.filterMap_cons, h]

theorem purgeQueuesLoop_noExchangeDeletes (outcome : String → DeleteOutcome) :
    ∀ (qs : List String) (gen : Nat),
      attemptedExchanges (purgeQueuesLoop outcome qs gen).1 = [] := by
  intro qs
  induction qs with
  | nil => intro gen; rfl
  | cons q rest ih =>
    intro gen
    cases hout : outcome q with
    | ok =>
      have h := ih gen
      simp only [attemptedExchanges] at h ⊢
      simp [purgeQueuesLoop, hout, List.filterMap_cons, h]
    | chanExc c t =>
      have h := ih (gen + 1)
      simp only [attemptedExchanges] at h ⊢
      simp [purgeQueuesLoop, hout, List.filterMap_cons, h]

/-- C8: in `purge_queues` a channel exception raised while deleting one
queue is caught — the broker's reply code and text are printed and the
channel is recreated — and every configured queue is still attempted, the
successful ones deleted; on the spec's concrete scenario `[qA, qB]` with
qA failing, the trace shows qA's reply printed, a fresh channel, and qB
attempted and deleted on the new channel. -/
theorem purge_queues_fault_isolation :
    (∀ (queues : List String) (outcome : String → DeleteOutcome),
      attemptedQueues (purge_queues queues outcome true) = queues ∧
      deletedQueues (purge_queues queues outcome true) =
        queues.filter (fun q => decide (outcome q = DeleteOutcome.ok)) ∧
      replyPrints (purge_queues queues outcome true) =
        queues.filterMap (fun q =>
          match outcome q with
          | DeleteOutcome.chanExc c t => some (c, t)
          | DeleteOutcome.ok => none)) ∧
    purge_queues ["qA", "qB"] ocAB true =
      [AdminEvent.newChannel 0, AdminEvent.printQueues ["qA", "qB"],
       AdminEvent.queueDelete 0 "qA", AdminEvent.printReply 406 "PRECONDITION_FAILED",
       AdminEvent.newChannel 1, AdminEvent.queueDelete 1 "qB",
       AdminEvent.printDeleting "qB", AdminEvent.connectionClose] := by
  refine ⟨fun queues outcome => ⟨?_, ?_, ?_⟩, by decide⟩
  · have h := purgeQueuesLoop_attempted outcome queues 0
    simp only [attemptedQueues] at h ⊢
    simp [purge_queues, List.filterMap_append, List.filterMap_cons, h]
  · have h := purgeQueuesLoop_deleted outcome queues 0
    simp only [deletedQueues] at h ⊢
    simp [purge_queues, List.filterMap_append, List.filterMap_cons, h]
  · have h := purgeQueuesLoop_replies outcome queues 0
    simp only [replyPrints] at h ⊢
    simp [purge_queues, List.filterMap_append, List.filterMap_cons, h]

theorem purgeExchangesLoop_attempted (outcome : String → DeleteOutcome) :
    ∀ (es : List String) (gen : Nat),
      attemptedExchanges (purgeExchangesLoop outcome es gen) = es := by
  intro es
  induction es with
  | nil => intro gen; rfl
  | cons e rest ih =>
    intro gen
    cases hout : outcome e with
    | ok =>
      have h := ih gen
      simp only [attemptedExchanges] at h ⊢
      simp [purgeExchangesLoop, hout, List.filterMap_cons, h]
    | chanExc c t =>
      have h := ih gen
      simp only [attemptedExchanges] at h ⊢
      simp [purgeExchangesLoop, hout, List.filterMap_cons, h]

theorem purgeExchangesLoop_replies (outcome : String → DeleteOutcome) :
    ∀ (es : List String) (gen : Nat),
      replyPrints (purgeExchangesLoop outcome es gen) =
        es.filterMap (fun e =>
          match outcome e with
          | DeleteOutcome.chanExc c t => some (c, t)
          | DeleteOutcome.ok => none) := by
  intro es
  induction es with
  | nil => intro gen; rfl
  | cons e rest ih =>
    intro gen
    cases hout : outcome e with
    | ok =>
      have h := ih gen
      simp only [replyPrints] at h ⊢
      simp [purgeExchangesLoop, hout, List.filterMap_cons, h]
    | chanExc c t =>
      have h := ih gen
      simp only [replyPrints] at h ⊢
      simp [purgeExchangesLoop, hout, List.filterMap_cons, h]

theorem purgeExchangesLoop_newChannels (outcome : String → DeleteOutcome) :
    ∀ (es : List String) (gen : Nat),
      newChannels (purgeExchangesLoop outcome es gen) = [] := by
  intro es
  induction es with
  | nil => intro gen; rfl
  | cons e rest ih =>
    intro gen
    cases hout : outcome e with
    | ok =>
      have h := ih gen
      simp only [newChannels] at h ⊢
      simp [purgeExchangesLoop, hout, List.filterMap_cons, h]
    | chanExc c t =>
      have h := ih gen
      simp only [newChannels] at h ⊢
      simp [purgeExchangesLoop, hout, List.filterMap_cons, h]

/-- C9 counterexample: the `except` arm of the exchange loop prints the
broker's reason but — unlike `purge_queues` — does not recreate the
channel.  With exchanges `[eA, eB]` and eA failing, the delete after the
failure is issued on the same channel generation 0 and the exchange-loop
trace contains no `conn.channel()` call at all, so "the channel is
recreated" is false of the code. -/
theorem purge_exchanges_channel_cex :
    purge_exchanges [] ["eA", "eB"] ocOk ocE true true =
      [AdminEvent.newChannel 0, AdminEvent.printQueues [], AdminEvent.connectionClose,
       AdminEvent.newChannel 0, AdminEvent.printExchanges ["eA", "eB"],
       AdminEvent.exchangeDelete 0 "eA", AdminEvent.printReply 406 "exchange in use",
       AdminEvent.exchangeDelete 0 "eB", AdminEvent.connectionClose] ∧
    newChannels (purgeExchangesLoop ocE ["eA", "eB"] 0) = [] ∧
    AdminEvent.exchangeDelete 0 "eB" ∈ purgeExchangesLoop ocE ["eA", "eB"] 0 ∧
    newChannels (purgeQueuesLoop ocAB ["qA", "qB"] 0).1 = [1] := by
  decide

/-- C9 (amended): `purge_exchanges` first performs the purge-queues
operation, then deletes every configured exchange; a failure deleting one
exchange is caught and the broker's reason logged, and the remaining
exchanges are still attempted — but on the same channel: unlike
`purge_queues`, the exchange loop never recreates the channel. -/
theorem purge_exchanges_behavior (qs es : List String)
    (qOut eOut : String → DeleteOutcome) :
    (purge_exchanges qs es qOut eOut true true).take
        (purge_queues qs qOut true).length = purge_queues qs qOut true ∧
    attemptedExchanges (purge_exchanges qs es qOut eOut true true) = es ∧
    replyPrints (purgeExchangesLoop eOut es 0) =
      es.filterMap (fun e =>
        match eOut e with
        | DeleteOutcome.chanExc c t => some (c, t)
        | DeleteOutcome.ok => none) ∧
    newChannels (purgeExchangesLoop eOut es 0) = [] := by
  refine ⟨?_, ?_, purgeExchangesLoop_replies eOut es 0,
    purgeExchangesLoop_newChannels eOut es 0⟩
  · rw [purge_exchanges, List.take_left]
  · have h1 := purgeQueuesLoop_noExchangeDeletes qOut qs 0
    have h2 := purgeExchangesLoop_attempted eOut es 0
    simp only [attemptedExchanges] at h1 h2 ⊢
    simp [purge_exchanges, purge_queues, List.filterMap_append, List.filterMap_cons,
      h1, h2]

theorem lookupExch_of_no_match (queue : String) :
    ∀ (bs : List Binding) (acc : Option String), (∀ b ∈ bs, b.queue ≠ queue) →
      bs.foldl (fun acc b => if b.queue = queue then some b.exchange else acc) acc = acc := by
  intro bs
  induction bs with
  | nil => intro acc _; rfl
  | cons b rest ih =>
    intro acc h
    have hb : b.queue ≠ queue := h b (by simp)
    have hrest : ∀ x ∈ rest, x.queue ≠ queue := fun x hx => h x (by simp [hx])
    simp [List.foldl_cons, hb, ih acc hrest]

/-- C10: calling `drain_queue` with a queue that is configured in
`settings.QUEUES` but referenced by no configured binding raises an
uncaught `NameError` — the local `exch` is never assigned before
`if not exch:` reads it — instead of printing the not-bound message and
returning. -/
theorem drain_queue_unbound_name_error (s : Settings) (queue ans : String)
    (waits : Nat) (h1 : queue ≠ "") (h2 : queue ∈ s.QUEUES)
    (h3 : get_user_confirmation ans = true)
    (h4 : ∀ b ∈ s.BINDINGS, b.queue ≠ queue) :
    (drain_queue s queue ans waits).2 = some PyError.nameError ∧
    DrainEvent.printNotBound queue ∉ (drain_queue s queue ans waits).1 := by
  have hl : lookupExch s.BINDINGS queue = none :=
    lookupExch_of_no_match queue s.BINDINGS none h4
  have hc : s.QUEUES.contains queue = true := by simpa using h2
  simp [drain_queue, h1, hc, h2, h3, hl]

/-- C10 witness: the `NameError` path at a concrete configuration in which
qX is configured but unbound. -/
theorem drain_queue_unbound_witness :
    (drain_queue sX "qX" "y" 0).2 = some PyError.nameError ∧
    DrainEvent.printNotBound "qX" ∉ (drain_queue sX "qX" "y" 0).1 :=
  drain_queue_unbound_name_error sX "qX" "y" 0 (by decide) (by decide)
    (by decide) (by decide)
